import Mathlib

/-!
Verification of the gmail-auto-bouncer engine against its specification.

Shallow embedding of src/gmailautobouncer: the pure data transformations
(header lookup, message field extraction, reply construction) are translated
directly as Lean functions; the effectful orchestrator (execute) and the
command-line entry point (main) are modelled as functions producing an
explicit event trace / outcome record, with the remote Gmail service and the
file system supplied as explicit environment parameters.  The retry loop of
send_reply is modelled by structural recursion over the (finite) schedule of
transport failures preceding the first fully successful attempt.
-/

namespace GmailAutoBouncer

/-- One name/value pair of the header list of a message, as produced by the
Gmail API (each element of message.payload.headers). -/
structure HeaderInfo where
  name : String
  value : String
deriving DecidableEq, Repr

/-- Result of header lookup: the mapping with keys index and value returned by
get_header_field in gmail_auto_bouncer.py.  A missing header yields index -1
and a value of None, modelled as none. -/
structure HeaderField where
  index : Int
  value : Option String
deriving DecidableEq, Repr

/-- Accumulator form of the loop in GmailAutoBouncer.__get_header_field
(gmail_auto_bouncer.py lines 218-231): walk the header list with a running
index, returning the index and value of the first entry whose name matches,
or index -1 with value None when no entry matches. -/
def get_header_field_aux (field_name : String) (index : Int) :
    List HeaderInfo → HeaderField
  | [] => { index := -1, value := none }
  | info :: rest =>
      if info.name = field_name then { index := index, value := some info.value }
      else get_header_field_aux field_name (index + 1) rest

/-- GmailAutoBouncer.__get_header_field: the loop starts at index 0. -/
def get_header_field (headers : List HeaderInfo) (field_name : String) :
    HeaderField :=
  get_header_field_aux field_name 0 headers

/-- One element of message.payload.parts: only the body.data field matters to
the engine (gmail_auto_bouncer.py line 267-271); it is absent when the part
carries no inline blob. -/
structure Part where
  body_data : Option String
deriving DecidableEq, Repr

/-- The payload of a fetched message: the ordered header list and the optional
parts list (the parts key may be absent from the dictionary). -/
structure Payload where
  headers : List HeaderInfo
  parts : Option (List Part)
deriving DecidableEq, Repr

/-- A full message as returned by service.users().messages().get: identifier,
payload, and the short plain-text snippet. -/
structure Message where
  id : String
  payload : Payload
  snippet : String
deriving DecidableEq, Repr

/-- A per-sender record of the reply_mapping configuration.  Every key of the
JSON object is optional; pfx models the key named prefix (that word is not
usable as a Lean identifier, and to_addr models the key named to, a Lean
keyword). -/
structure ReplyAttributes where
  pfx : Option String
  to_addr : Option String
  multiple : Option Nat
  keep_reply : Option Bool
deriving DecidableEq, Repr

/-- Python string interpolation with the percent-s directive renders the value
None as the four characters None; used where the source formats a header
value that may be absent. -/
def pyStr : Option String → String
  | some s => s
  | none => "None"

/-- GmailAutoBouncer.__process_message (lines 258-276): extract the Date, To
and Subject header fields and the message body.  The body is the decoded
first-part blob when the payload has a parts list whose first part carries
inline data, else the snippet.  The decode parameter stands for
base64.urlsafe_b64decode followed by utf-8 decoding (an external pure
transformation).  Divergence note: on a present but empty parts list the
Python indexes parts[0] and raises; the model falls back to the snippet, and
no claim depends on that case. -/
def process_message (decode : String → String) (message : Message) :
    HeaderField × HeaderField × HeaderField × String :=
  let headers := message.payload.headers
  let date_field := get_header_field headers "Date"
  let to_field := get_header_field headers "To"
  let subject_field := get_header_field headers "Subject"
  let message_body :=
    match message.payload.parts with
    | some (p :: _) =>
        match p.body_data with
        | some d => decode d
        | none => message.snippet
    | _ => message.snippet
  (date_field, to_field, subject_field, message_body)

/-- The reply message built by GmailAutoBouncer.__construct_reply, before MIME
serialization and base64url encoding (which are injective transport encodings
the claims do not inspect): the text body and the to, from and subject
header values assigned at lines 318-326. -/
structure ReplyMessage where
  body : String
  to_addr : Option String
  from_addr : Option String
  subject : String
deriving DecidableEq, Repr

/-- GmailAutoBouncer.__construct_reply (lines 309-332): choose the policy
prefix when present else the engine-wide default, format the metadata block
of the original message, assemble body, recipient, sender and subject. -/
def construct_reply (default_pfx : String)
    (from_field date_field to_field subject_field : HeaderField)
    (message_body : String) (reply_attributes : ReplyAttributes) :
    ReplyMessage :=
  let pfx :=
    match reply_attributes.pfx with
    | some p => p
    | none => default_pfx
  let metadata := "From:  " ++ pyStr from_field.value ++
    "\nSent:  " ++ pyStr date_field.value ++
    "\nTo:  " ++ pyStr to_field.value ++
    "\nSubject:  " ++ pyStr subject_field.value
  { body := pfx ++ "\n\n" ++ metadata ++ "\n\n" ++ message_body
    to_addr :=
      match reply_attributes.to_addr with
      | some t => some t
      | none => from_field.value
    from_addr := to_field.value
    subject := "Re:  " ++ pyStr subject_field.value }

/-- Where a given retry iteration of GmailAutoBouncer.send_reply fails: the
transport send call raises, or (when the reply is not kept) the delete of the
sent reply raises.  Both are caught by the bare except at line 371. -/
inductive StepFail where
  | atSend
  | atDelete
deriving DecidableEq, Repr

/-- Observable transport events of one send_reply call: a successful send of
the reply, a successful delete of the sent reply, a warning logged for a
caught failure, and the loop finishing (success set to True). -/
inductive SendEv where
  | sent
  | replyDeleted
  | warned
  | succeeded
deriving DecidableEq, Repr

/-- GmailAutoBouncer.send_reply (lines 357-375), modelled over the finite
schedule of transport failures that precede the first fully successful
iteration.  Each iteration sends, then (unless keep_reply) sleeps and deletes
the sent reply; any raise logs a warning and restarts the whole sequence; the
loop ends only when an iteration completes.  A failure scheduled at the
delete step cannot occur when the reply is kept, because the delete is never
attempted: in that case the iteration already succeeds. -/
def send_reply_trace (keep_reply : Bool) : List StepFail → List SendEv
  | [] => .sent :: (if keep_reply then [.succeeded] else [.replyDeleted, .succeeded])
  | .atSend :: rest => .warned :: send_reply_trace keep_reply rest
  | .atDelete :: rest =>
      if keep_reply then [.sent, .succeeded]
      else .sent :: .warned :: send_reply_trace keep_reply rest

/-- Number of occurrences of one event in a send_reply trace. -/
def count_send_ev (e : SendEv) : List SendEv → Nat
  | [] => 0
  | x :: rest => (if x = e then 1 else 0) + count_send_ev e rest

/-- Observable events of one orchestrator pass (GmailAutoBouncer.execute):
a single-page unread listing request for a label with its maxResults bound, a
message fetch, one send_reply invocation (with the constructed reply, the
keep_reply flag, the attempt index, and whether it was dispatched through the
worker pool), and the delete of an original message. -/
inductive Ev where
  | listed (label : String) (max_results : Nat)
  | fetched (mid : String)
  | send (mid : String) (reply : ReplyMessage) (keep_reply : Bool)
      (index : Nat) (pooled : Bool)
  | deletedOriginal (mid : String)
deriving DecidableEq, Repr

/-- True exactly on send events. -/
def is_send_ev : Ev → Bool
  | .send _ _ _ _ _ => true
  | _ => false

/-- True exactly on original-message delete events. -/
def is_delete_ev : Ev → Bool
  | .deletedOriginal _ => true
  | _ => false

/-- True exactly on listing events. -/
def is_listed_ev : Ev → Bool
  | .listed _ _ => true
  | _ => false

/-- The remote mailbox as the engine sees it in one pass: the messages field
of the inbox and spam listing responses (absent when the response has no such
key) and the fetch operation from identifier to full message. -/
structure GmailEnv where
  inbox_messages : Option (List String)
  spam_messages : Option (List String)
  get_message : String → Message

/-- The configuration values the orchestrator reads: the reply_mapping as a
lookup from sender value to policy record, the default prefix, the pool size,
and the pure decode standing for base64url plus utf-8 decoding. -/
structure BouncerConfig where
  reply_mapping : String → Option ReplyAttributes
  default_pfx : String
  pool_size : Nat
  decode : String → String

/-- The match test inlined in GmailAutoBouncer.execute at lines 417-424: the
message is unmatched (result none) when the From field has index below zero,
or its value is falsy (None or the empty string), or its value is not a key
of reply_mapping; otherwise the policy record of the sender is returned. -/
def resolve_policy (mapping : String → Option ReplyAttributes)
    (from_field : HeaderField) : Option ReplyAttributes :=
  if from_field.index < 0 then none
  else
    match from_field.value with
    | none => none
    | some v => if v = "" then none else mapping v

/-- The dispatch decision of execute at lines 436-455: when the policy record
carries the key multiple, fan out over the worker pool one send_reply
invocation per index in range(multiple); otherwise call send_reply directly
once with index 0.  The keep_reply argument defaults to False in both
branches when the key is absent. -/
def dispatch_events (mid : String) (raw_reply : ReplyMessage)
    (reply_attributes : ReplyAttributes) : List Ev :=
  let keep :=
    match reply_attributes.keep_reply with
    | some b => b
    | none => false
  match reply_attributes.multiple with
  | some n => (List.range n).map fun i => Ev.send mid raw_reply keep i true
  | none => [Ev.send mid raw_reply keep 0 false]

/-- The per-identifier body of the loop of execute (lines 409-460): fetch the
message, resolve the From header against reply_mapping; when unmatched, log
and do nothing more; when matched, extract the message fields, construct the
reply, dispatch the configured replies (the pool join at line 447 is a
barrier, so every reply completes before control reaches the delete), and
finally delete the original message.  Within one message the send events are
recorded in index order; their mutual order is immaterial to the claims,
which only relate them to the final delete. -/
def process_one (cfg : BouncerConfig) (env : GmailEnv) (mid : String) :
    List Ev :=
  let message := env.get_message mid
  let from_field := get_header_field message.payload.headers "From"
  match resolve_policy cfg.reply_mapping from_field with
  | none => [Ev.fetched mid]
  | some reply_attributes =>
      let extracted := process_message cfg.decode message
      let raw_reply := construct_reply cfg.default_pfx from_field
        extracted.1 extracted.2.1 extracted.2.2.1 extracted.2.2.2
        reply_attributes
      Ev.fetched mid ::
        (dispatch_events mid raw_reply reply_attributes ++
          [Ev.deletedOriginal mid])

/-- GmailAutoBouncer.execute (lines 389-461): list unread messages of the
inbox (one page, maxResults 100), then of the spam folder under the same
bound, concatenate the two identifier lists in that order (extend, no
deduplication), and process each identifier in sequence. -/
def execute (cfg : BouncerConfig) (env : GmailEnv) : List Ev :=
  Ev.listed "INBOX" 100 :: Ev.listed "SPAM" 100 ::
    ((match env.inbox_messages with | some l => l | none => []) ++
      (match env.spam_messages with | some l => l | none => [])).flatMap
      (process_one cfg env)

/-- Identifiers in processing order: the fetch events of a trace. -/
def processed_ids (trace : List Ev) : List String :=
  trace.filterMap fun e =>
    match e with
    | .fetched mid => some mid
    | _ => none

/-- Attempt index carried by a send event (0 on other events). -/
def send_index : Ev → Nat
  | .send _ _ _ i _ => i
  | _ => 0

/-- Whether a send event was dispatched through the worker pool. -/
def send_pooled : Ev → Bool
  | .send _ _ _ _ p => p
  | _ => false

/-- Outcome of one command-line invocation of gmailautobouncer.__main__.main:
the operator-facing message printed (if any), the exit status of the process,
and whether an orchestrator pass was constructed and run. -/
structure MainOutcome where
  printed : Option String
  exit_code : Nat
  ran_pass : Bool
deriving DecidableEq, Repr

/-- In Python, sys.exit() invoked with no argument raises SystemExit(None),
which terminates the process with exit status 0.  Both error paths of main
call sys.exit() with no argument (lines 54 and 57 of the source file named
by two underscores, main, two underscores, dot py). -/
def sys_exit_no_arg_code : Nat := 0

/-- main of gmailautobouncer (lines 46-57 of its module): with fewer than two
argv entries, print a message and exit via the no-argument exit call; with a
configuration path argument that does not exist on the file system, print a
message and exit the same way; otherwise construct the bouncer, run one pass,
return normally (process exit status 0). -/
def main (argv : List String) (path_exists : String → Bool) : MainOutcome :=
  if 1 < argv.length then
    if path_exists (argv.getD 1 "") then
      { printed := none, exit_code := 0, ran_pass := true }
    else
      { printed := some ("file not found at given path " ++ argv.getD 1 "" ++
          ", exiting")
        exit_code := sys_exit_no_arg_code
        ran_pass := false }
  else
    { printed := some "configuration file not on command line, exiting"
      exit_code := sys_exit_no_arg_code
      ran_pass := false }

/-! Concrete fixtures used by witnesses and counterexamples. -/

/-- A fetched message carrying the four headers the engine reads. -/
def fix_message : Message :=
  { id := "m1"
    payload :=
      { headers := [⟨"From", "x@y.com"⟩, ⟨"Date", "D"⟩, ⟨"To", "me@z.com"⟩,
          ⟨"Subject", "S"⟩]
        parts := none }
    snippet := "B" }

/-- A fetched message with an empty header list (no From header at all). -/
def fix_message_no_from : Message :=
  { id := "m0", payload := { headers := [], parts := none }, snippet := "B" }

/-- Environment whose inbox lists one message, sent by x at y dot com. -/
def fix_env : GmailEnv :=
  { inbox_messages := some ["m1"], spam_messages := none
    get_message := fun _ => fix_message }

/-- Environment whose single message carries no From header. -/
def fix_env_no_from : GmailEnv :=
  { inbox_messages := some ["m0"], spam_messages := none
    get_message := fun _ => fix_message_no_from }

/-- A policy record with every optional key absent. -/
def fix_policy_default : ReplyAttributes :=
  { pfx := none, to_addr := none, multiple := none, keep_reply := none }

/-- A policy record whose key multiple is present with value 0. -/
def fix_policy_zero : ReplyAttributes :=
  { pfx := none, to_addr := none, multiple := some 0, keep_reply := none }

/-- Configuration mapping the fixture sender to the all-defaults policy. -/
def fix_cfg_plain : BouncerConfig :=
  { reply_mapping := fun v =>
      if v = "x@y.com" then some fix_policy_default else none
    default_pfx := "STOP", pool_size := 4, decode := id }

/-- Configuration mapping the fixture sender to the zero-reply policy. -/
def fix_cfg_zero : BouncerConfig :=
  { reply_mapping := fun v =>
      if v = "x@y.com" then some fix_policy_zero else none
    default_pfx := "STOP", pool_size := 4, decode := id }

/-- A policy record requesting three replies, all kept. -/
def fix_policy_three : ReplyAttributes :=
  { pfx := none, to_addr := none, multiple := some 3, keep_reply := some true }

/-- Configuration mapping the fixture sender to the three-reply policy. -/
def fix_cfg_three : BouncerConfig :=
  { reply_mapping := fun v =>
      if v = "x@y.com" then some fix_policy_three else none
    default_pfx := "STOP", pool_size := 4, decode := id }

/-! Helper lemmas. -/

/-- The loop of get_header_field started at any index returns that index plus
the offset of the first matching entry, together with its value. -/
theorem get_header_field_aux_append (field_name : String) (info : HeaderInfo)
    (suf : List HeaderInfo) (hname : info.name = field_name) :
    ∀ (pre : List HeaderInfo) (k : Int), (∀ j ∈ pre, j.name ≠ field_name) →
      get_header_field_aux field_name k (pre ++ info :: suf) =
        { index := k + pre.length, value := some info.value }
  | [], k, _ => by simp [get_header_field_aux, hname]
  | j :: pre, k, h => by
      have hj : j.name ≠ field_name := h j (by simp)
      have ih := get_header_field_aux_append field_name info suf hname pre
        (k + 1) (fun x hx => h x (by simp [hx]))
      rw [List.cons_append, get_header_field_aux, if_neg hj, ih]
      congr 1
      simp only [List.length_cons]
      push_cast
      ring

/-- The loop of get_header_field started at any index returns the not-found
record when no entry matches. -/
theorem get_header_field_aux_not_found (field_name : String) :
    ∀ (headers : List HeaderInfo) (k : Int),
      (∀ info ∈ headers, info.name ≠ field_name) →
      get_header_field_aux field_name k headers = { index := -1, value := none }
  | [], _, _ => rfl
  | info :: rest, k, h => by
      simp only [get_header_field_aux, if_neg (h info (by simp))]
      exact get_header_field_aux_not_found field_name rest (k + 1)
        (fun x hx => h x (by simp [hx]))

/-- Unmatched senders in the condition form of execute lines 417-424. -/
theorem resolve_policy_none_of (mapping : String → Option ReplyAttributes)
    (hf : HeaderField)
    (h : hf.index = -1 ∨ hf.value = none ∨ hf.value = some "" ∨
      ∀ v, hf.value = some v → mapping v = none) :
    resolve_policy mapping hf = none := by
  rcases h with h | h | h | h
  · have hlt : hf.index < 0 := by omega
    simp [resolve_policy, hlt]
  · simp [resolve_policy, h]
  · simp [resolve_policy, h]
  · unfold resolve_policy
    split
    · rfl
    · cases hv : hf.value with
      | none => rfl
      | some v =>
          by_cases hv0 : v = ""
          · simp [hv0]
          · simp [hv0, h v hv]

/-- Every event produced by the dispatch branch is a send event. -/
theorem dispatch_events_all_send (mid : String) (raw_reply : ReplyMessage)
    (ra : ReplyAttributes) :
    ∀ e ∈ dispatch_events mid raw_reply ra, is_send_ev e = true := by
  unfold dispatch_events
  cases ra.multiple <;> simp [is_send_ev]

/-- The dispatch branch produces no original-message delete event. -/
theorem dispatch_events_filter_delete (mid : String) (raw_reply : ReplyMessage)
    (ra : ReplyAttributes) :
    (dispatch_events mid raw_reply ra).filter is_delete_ev = [] := by
  simp only [List.filter_eq_nil_iff]
  intro e he
  have := dispatch_events_all_send mid raw_reply ra e he
  cases e <;> simp_all [is_send_ev, is_delete_ev]

/-- The dispatch branch is left unchanged by the send filter. -/
theorem dispatch_events_filter_send (mid : String) (raw_reply : ReplyMessage)
    (ra : ReplyAttributes) :
    (dispatch_events mid raw_reply ra).filter is_send_ev =
      dispatch_events mid raw_reply ra :=
  List.filter_eq_self.mpr (dispatch_events_all_send mid raw_reply ra)

/-- The dispatch branch contributes no fetch event. -/
theorem processed_ids_dispatch_events (mid : String)
    (raw_reply : ReplyMessage) (ra : ReplyAttributes) :
    processed_ids (dispatch_events mid raw_reply ra) = [] := by
  unfold processed_ids dispatch_events
  cases ra.multiple <;> simp [List.filterMap_map, Function.comp]

/-- Fetch identifiers distribute over trace concatenation. -/
theorem processed_ids_append (a b : List Ev) :
    processed_ids (a ++ b) = processed_ids a ++ processed_ids b :=
  List.filterMap_append a b _

/-- A leading fetch event contributes its identifier. -/
theorem processed_ids_fetched_cons (mid : String) (t : List Ev) :
    processed_ids (Ev.fetched mid :: t) = mid :: processed_ids t := by
  simp [processed_ids]

/-- Fetch events of the work of one identifier: exactly the identifier. -/
theorem processed_ids_process_one (cfg : BouncerConfig) (env : GmailEnv)
    (mid : String) :
    processed_ids (process_one cfg env mid) = [mid] := by
  cases h : resolve_policy cfg.reply_mapping
      (get_header_field (env.get_message mid).payload.headers "From") with
  | none => simp [process_one, h, processed_ids]
  | some ra =>
      simp only [process_one, h]
      rw [processed_ids_fetched_cons, processed_ids_append,
        processed_ids_dispatch_events]
      rfl

/-- Fetch events of a whole pass are the processed identifiers in order. -/
theorem processed_ids_flatMap (cfg : BouncerConfig) (env : GmailEnv) :
    ∀ ids : List String,
      processed_ids (ids.flatMap (process_one cfg env)) = ids
  | [] => rfl
  | mid :: rest => by
      rw [List.flatMap_cons, processed_ids_append,
        processed_ids_process_one, processed_ids_flatMap cfg env rest]
      rfl

/-- The dispatch branch contains no listing event. -/
theorem dispatch_events_filter_listed (mid : String)
    (raw_reply : ReplyMessage) (ra : ReplyAttributes) :
    (dispatch_events mid raw_reply ra).filter is_listed_ev = [] := by
  simp only [List.filter_eq_nil_iff]
  intro e he
  have := dispatch_events_all_send mid raw_reply ra e he
  cases e <;> simp_all [is_send_ev, is_listed_ev]

/-- The work of one identifier contains no listing event. -/
theorem filter_listed_process_one (cfg : BouncerConfig) (env : GmailEnv)
    (mid : String) :
    (process_one cfg env mid).filter is_listed_ev = [] := by
  cases h : resolve_policy cfg.reply_mapping
      (get_header_field (env.get_message mid).payload.headers "From") with
  | none => simp [process_one, h, is_listed_ev]
  | some ra =>
      simp only [process_one, h]
      simp [is_listed_ev, List.filter_append, dispatch_events_filter_listed]

/-- The per-message loop of a pass contains no listing event. -/
theorem filter_listed_flatMap (cfg : BouncerConfig) (env : GmailEnv) :
    ∀ ids : List String,
      ((ids.flatMap (process_one cfg env)).filter is_listed_ev) = []
  | [] => rfl
  | mid :: rest => by
      rw [List.flatMap_cons, List.filter_append,
        filter_listed_process_one, filter_listed_flatMap cfg env rest]
      rfl

/-- Reading the attempt index back off a list of send events recovers the
index list they were built from. -/
theorem map_send_index_map (mid : String) (raw_reply : ReplyMessage)
    (k : Bool) (l : List Nat) :
    ((l.map fun i => Ev.send mid raw_reply k i true)).map send_index = l := by
  induction l with
  | nil => rfl
  | cons a t ih => simp only [List.map_cons, send_index, ih]

/-- When the key multiple is present with value n, the dispatched sends carry
attempt indices 0 up to n - 1 and all go through the worker pool. -/
theorem dispatch_events_map_index_some (mid : String)
    (raw_reply : ReplyMessage) (ra : ReplyAttributes) (n : Nat)
    (hn : ra.multiple = some n) :
    (dispatch_events mid raw_reply ra).map send_index = List.range n ∧
    ∀ e ∈ dispatch_events mid raw_reply ra, send_pooled e = true := by
  constructor
  · simp only [dispatch_events, hn]
    exact map_send_index_map mid raw_reply _ (List.range n)
  · simp [dispatch_events, hn, send_pooled]

/-- When the key multiple is absent, one direct send with index 0 occurs. -/
theorem dispatch_events_map_index_none (mid : String)
    (raw_reply : ReplyMessage) (ra : ReplyAttributes)
    (hn : ra.multiple = none) :
    (dispatch_events mid raw_reply ra).map send_index = [0] ∧
    ∀ e ∈ dispatch_events mid raw_reply ra, send_pooled e = false := by
  simp [dispatch_events, hn, send_index, send_pooled]

/-! Claim theorems. -/

/-- C7: for every header list and field name, get_header_field returns the
position and value of the first occurrence of the name in header order; with
duplicate names the earliest occurrence wins. -/
theorem get_header_field_first_occurrence (headers : List HeaderInfo)
    (field_name : String) (pre suf : List HeaderInfo) (info : HeaderInfo)
    (hsplit : headers = pre ++ info :: suf) (hname : info.name = field_name)
    (hfirst : ∀ j ∈ pre, j.name ≠ field_name) :
    get_header_field headers field_name =
      { index := (pre.length : Int), value := some info.value } := by
  subst hsplit
  have h := get_header_field_aux_append field_name info suf hname pre 0 hfirst
  simpa [get_header_field] using h

/-- C7 witness: on a list with a duplicated From header the first occurrence
by order is returned, at position 0 with its own value. -/
theorem get_header_field_first_occurrence_witness :
    get_header_field [⟨"From", "a"⟩, ⟨"From", "b"⟩] "From" =
      { index := 0, value := some "a" } :=
  get_header_field_first_occurrence _ "From" [] [⟨"From", "b"⟩]
    ⟨"From", "a"⟩ rfl rfl (by simp)

/-- C8: for every header list containing no entry with the requested name,
including the empty list, get_header_field returns index -1 and an absent
value; the function is total, so no error can be raised. -/
theorem get_header_field_absent (headers : List HeaderInfo)
    (field_name : String) (h : ∀ info ∈ headers, info.name ≠ field_name) :
    get_header_field headers field_name = { index := -1, value := none } :=
  get_header_field_aux_not_found field_name headers 0 h

/-- C8 witness: the empty header list and a nonempty list without the
requested name both yield index -1 and an absent value. -/
theorem get_header_field_absent_witness :
    get_header_field [] "From" = { index := -1, value := none } ∧
    get_header_field [⟨"Date", "D"⟩] "From" =
      { index := -1, value := none } :=
  ⟨get_header_field_absent [] "From" (by simp),
   get_header_field_absent [⟨"Date", "D"⟩] "From" (by simp)⟩

/-- C4: for every matched message (all four header fields resolved with
values) and policy, the constructed reply has the exact body format
prefix, blank line, metadata block, blank line, original body, with the
prefix taken from the policy when present else the default; the recipient is
the policy forwarding address when present else the original sender; the
reply sender is the To header value of the original; and the subject is
Re colon two spaces followed by the original subject. -/
theorem construct_reply_fields (default_pfx f d t s message_body : String)
    (fi di ti si : Int) (reply_attributes : ReplyAttributes) :
    construct_reply default_pfx ⟨fi, some f⟩ ⟨di, some d⟩ ⟨ti, some t⟩
        ⟨si, some s⟩ message_body reply_attributes =
      { body := reply_attributes.pfx.getD default_pfx ++ "\n\n" ++
          ("From:  " ++ f ++ "\nSent:  " ++ d ++ "\nTo:  " ++ t ++
            "\nSubject:  " ++ s) ++ "\n\n" ++ message_body
        to_addr := some (reply_attributes.to_addr.getD f)
        from_addr := some t
        subject := "Re:  " ++ s } := by
  cases hp : reply_attributes.pfx <;> cases ht : reply_attributes.to_addr <;>
    simp [construct_reply, pyStr, hp, ht]

/-- C1: for every unread message whose resolved From field has index -1, or
an absent or empty value, or a value that is not a key of reply_mapping, the
per-message step of execute performs no send and no original delete: its
trace is the lone fetch event, leaving the message untouched, and the loop
moves on to the next identifier. -/
theorem unmatched_sender_no_send_no_delete (cfg : BouncerConfig)
    (env : GmailEnv) (mid : String)
    (h : (get_header_field (env.get_message mid).payload.headers "From").index
        = -1 ∨
      (get_header_field (env.get_message mid).payload.headers "From").value
        = none ∨
      (get_header_field (env.get_message mid).payload.headers "From").value
        = some "" ∨
      ∀ v, (get_header_field (env.get_message mid).payload.headers
        "From").value = some v → cfg.reply_mapping v = none) :
    process_one cfg env mid = [Ev.fetched mid] ∧
    (process_one cfg env mid).filter is_send_ev = [] ∧
    (process_one cfg env mid).filter is_delete_ev = [] := by
  have hres : resolve_policy cfg.reply_mapping
      (get_header_field (env.get_message mid).payload.headers "From") = none :=
    resolve_policy_none_of _ _ h
  refine ⟨?_, ?_, ?_⟩ <;> simp [process_one, hres, is_send_ev, is_delete_ev]

/-- C1 witness: a message with no From header at all is fetched and left
untouched, with no send and no delete. -/
theorem unmatched_sender_no_send_no_delete_witness :
    process_one fix_cfg_plain fix_env_no_from "m0" = [Ev.fetched "m0"] ∧
    (process_one fix_cfg_plain fix_env_no_from "m0").filter is_send_ev = [] ∧
    (process_one fix_cfg_plain fix_env_no_from "m0").filter is_delete_ev
      = [] :=
  unmatched_sender_no_send_no_delete fix_cfg_plain fix_env_no_from "m0"
    (Or.inl rfl)

/-- C2: for every message whose sender matched a policy, the per-message
trace consists of the fetch, then the configured send invocations, then a
single delete of the original message as its final event: the original is
deleted exactly once, only after every configured reply completed, and the
deletion depends on nothing but the match. -/
theorem matched_sender_deletes_once_after_replies (cfg : BouncerConfig)
    (env : GmailEnv) (mid : String) (ra : ReplyAttributes)
    (h : resolve_policy cfg.reply_mapping
      (get_header_field (env.get_message mid).payload.headers "From")
      = some ra) :
    ∃ sends : List Ev, (∀ e ∈ sends, is_send_ev e = true) ∧
      process_one cfg env mid =
        Ev.fetched mid :: (sends ++ [Ev.deletedOriginal mid]) ∧
      (process_one cfg env mid).filter is_delete_ev =
        [Ev.deletedOriginal mid] := by
  refine ⟨dispatch_events mid (construct_reply cfg.default_pfx
      (get_header_field (env.get_message mid).payload.headers "From")
      (process_message cfg.decode (env.get_message mid)).1
      (process_message cfg.decode (env.get_message mid)).2.1
      (process_message cfg.decode (env.get_message mid)).2.2.1
      (process_message cfg.decode (env.get_message mid)).2.2.2 ra) ra,
    dispatch_events_all_send _ _ _, ?_, ?_⟩
  · simp [process_one, h]
  · simp [process_one, h, List.filter_append, dispatch_events_filter_delete,
      is_delete_ev]

/-- C2 witness: the fixture sender is matched by the all-defaults policy and
its message is deleted exactly once, after the single reply. -/
theorem matched_sender_deletes_once_after_replies_witness :
    ∃ sends : List Ev, (∀ e ∈ sends, is_send_ev e = true) ∧
      process_one fix_cfg_plain fix_env "m1" =
        Ev.fetched "m1" :: (sends ++ [Ev.deletedOriginal "m1"]) ∧
      (process_one fix_cfg_plain fix_env "m1").filter is_delete_ev =
        [Ev.deletedOriginal "m1"] :=
  matched_sender_deletes_once_after_replies fix_cfg_plain fix_env "m1"
    fix_policy_default (by decide)

/-- C10: for every matched message whose policy carries the key multiple with
value 0, the fan-out iterates over an empty range, so no send event occurs,
and the original message is still deleted. -/
theorem multiple_zero_no_sends_still_deletes (cfg : BouncerConfig)
    (env : GmailEnv) (mid : String) (ra : ReplyAttributes)
    (h : resolve_policy cfg.reply_mapping
      (get_header_field (env.get_message mid).payload.headers "From")
      = some ra)
    (h0 : ra.multiple = some 0) :
    (process_one cfg env mid).filter is_send_ev = [] ∧
    (process_one cfg env mid).filter is_delete_ev =
      [Ev.deletedOriginal mid] := by
  constructor <;>
    simp [process_one, h, dispatch_events, h0, is_send_ev, is_delete_ev]

/-- C10 witness: under the zero-reply policy the fixture message produces no
send event and one original delete. -/
theorem multiple_zero_no_sends_still_deletes_witness :
    (process_one fix_cfg_zero fix_env "m1").filter is_send_ev = [] ∧
    (process_one fix_cfg_zero fix_env "m1").filter is_delete_ev =
      [Ev.deletedOriginal "m1"] :=
  multiple_zero_no_sends_still_deletes fix_cfg_zero fix_env "m1"
    fix_policy_zero (by decide) rfl

/-- C5 counterexample: a matched policy whose reply count is 0 does not
specify more than one reply, so the claim requires one direct sendOne
invocation with attempt index 0; the code instead branches on the mere
presence of the key multiple and fans out range(0), producing no send
invocation at all. -/
theorem dispatch_multiple_key_counterexample :
    resolve_policy fix_cfg_zero.reply_mapping
        (get_header_field (fix_env.get_message "m1").payload.headers "From") =
      some fix_policy_zero ∧
    fix_policy_zero.multiple = some 0 ∧
    (process_one fix_cfg_zero fix_env "m1").filter is_send_ev = [] := by
  refine ⟨by decide, rfl, by decide⟩

/-- C5 amended: the orchestrator branches on the presence of the key
multiple, not on its value: when the key is present with value n (any n,
including 0 and 1) it fans out n send_reply invocations through the worker
pool with attempt indices 0 to n - 1; when the key is absent it invokes
send_reply exactly once, directly, with attempt index 0. -/
theorem dispatch_branches_on_multiple_key (cfg : BouncerConfig)
    (env : GmailEnv) (mid : String) (ra : ReplyAttributes)
    (h : resolve_policy cfg.reply_mapping
      (get_header_field (env.get_message mid).payload.headers "From")
      = some ra) :
    (∀ n, ra.multiple = some n →
      ((process_one cfg env mid).filter is_send_ev).map send_index =
        List.range n ∧
      ∀ e ∈ (process_one cfg env mid).filter is_send_ev,
        send_pooled e = true) ∧
    (ra.multiple = none →
      ((process_one cfg env mid).filter is_send_ev).map send_index = [0] ∧
      ∀ e ∈ (process_one cfg env mid).filter is_send_ev,
        send_pooled e = false) := by
  have hfil : (process_one cfg env mid).filter is_send_ev =
      dispatch_events mid (construct_reply cfg.default_pfx
        (get_header_field (env.get_message mid).payload.headers "From")
        (process_message cfg.decode (env.get_message mid)).1
        (process_message cfg.decode (env.get_message mid)).2.1
        (process_message cfg.decode (env.get_message mid)).2.2.1
        (process_message cfg.decode (env.get_message mid)).2.2.2 ra) ra := by
    simp only [process_one, h]
    simp [is_send_ev, List.filter_append, dispatch_events_filter_send]
  refine ⟨fun n hn => ?_, fun hn => ?_⟩
  · rw [hfil]
    exact dispatch_events_map_index_some _ _ _ n hn
  · rw [hfil]
    exact dispatch_events_map_index_none _ _ _ hn

/-- C5 witness: the three-reply policy yields pooled attempt indices 0, 1, 2,
and the all-defaults policy yields one direct send with index 0. -/
theorem dispatch_branches_on_multiple_key_witness :
    (((process_one fix_cfg_three fix_env "m1").filter is_send_ev).map
      send_index = List.range 3 ∧
    ∀ e ∈ (process_one fix_cfg_three fix_env "m1").filter is_send_ev,
      send_pooled e = true) ∧
    (((process_one fix_cfg_plain fix_env "m1").filter is_send_ev).map
      send_index = [0] ∧
    ∀ e ∈ (process_one fix_cfg_plain fix_env "m1").filter is_send_ev,
      send_pooled e = false) :=
  ⟨(dispatch_branches_on_multiple_key fix_cfg_three fix_env "m1"
      fix_policy_three (by decide)).1 3 rfl,
   (dispatch_branches_on_multiple_key fix_cfg_plain fix_env "m1"
      fix_policy_default (by decide)).2 rfl⟩

/-- C6: one pass lists the inbox partition then the spam partition, each as a
single page with the maxResults bound 100, and processes the concatenated
identifier lists in inbox-then-spam order with no deduplication; in
particular inbox m1, m2 with spam m3 is processed in order m1, m2, m3. -/
theorem execute_merged_order (cfg : BouncerConfig) (env : GmailEnv) :
    processed_ids (execute cfg env) =
      (match env.inbox_messages with | some l => l | none => []) ++
      (match env.spam_messages with | some l => l | none => []) ∧
    (execute cfg env).filter is_listed_ev =
      [Ev.listed "INBOX" 100, Ev.listed "SPAM" 100] ∧
    processed_ids (execute cfg
      { inbox_messages := some ["m1", "m2"], spam_messages := some ["m3"]
        get_message := env.get_message }) = ["m1", "m2", "m3"] := by
  have hmain : ∀ e : GmailEnv, processed_ids (execute cfg e) =
      (match e.inbox_messages with | some l => l | none => []) ++
      (match e.spam_messages with | some l => l | none => []) := by
    intro e
    have h := processed_ids_flatMap cfg e
      ((match e.inbox_messages with | some l => l | none => []) ++
        (match e.spam_messages with | some l => l | none => []))
    simpa [execute, processed_ids] using h
  refine ⟨hmain env, ?_, hmain _⟩
  simp [execute, is_listed_ev, filter_listed_flatMap]

/-- Every send_reply call reaches success exactly once: the loop runs until
an iteration completes, and then stops. -/
theorem count_succeeded_send_reply (keep_reply : Bool) :
    ∀ fails : List StepFail,
      count_send_ev .succeeded (send_reply_trace keep_reply fails) = 1
  | [] => by cases keep_reply <;> rfl
  | .atSend :: rest => by
      simp [send_reply_trace, count_send_ev,
        count_succeeded_send_reply keep_reply rest]
  | .atDelete :: rest => by
      cases keep_reply with
      | true => rfl
      | false =>
          simp [send_reply_trace, count_send_ev,
            count_succeeded_send_reply false rest]

/-- When the reply is not kept, exactly one delete of the sent reply succeeds
across all retries. -/
theorem count_reply_deleted_send_reply_false :
    ∀ fails : List StepFail,
      count_send_ev .replyDeleted (send_reply_trace false fails) = 1
  | [] => rfl
  | .atSend :: rest => by
      simp [send_reply_trace, count_send_ev,
        count_reply_deleted_send_reply_false rest]
  | .atDelete :: rest => by
      simp [send_reply_trace, count_send_ev,
        count_reply_deleted_send_reply_false rest]

/-- When the reply is kept, no delete of the sent reply ever occurs. -/
theorem count_reply_deleted_send_reply_true :
    ∀ fails : List StepFail,
      count_send_ev .replyDeleted (send_reply_trace true fails) = 0
  | [] => rfl
  | .atSend :: rest => by
      simp [send_reply_trace, count_send_ev,
        count_reply_deleted_send_reply_true rest]
  | .atDelete :: rest => rfl

/-- When every scheduled failure hits the transport send itself, exactly one
send succeeds over the whole retried sequence. -/
theorem count_sent_send_reply_all_at_send (keep_reply : Bool) :
    ∀ fails : List StepFail, (∀ f ∈ fails, f = StepFail.atSend) →
      count_send_ev .sent (send_reply_trace keep_reply fails) = 1
  | [], _ => by cases keep_reply <;> rfl
  | .atSend :: rest, h => by
      simp [send_reply_trace, count_send_ev,
        count_sent_send_reply_all_at_send keep_reply rest
          (fun f hf => h f (by simp [hf]))]
  | .atDelete :: rest, h => by
      have : StepFail.atDelete = StepFail.atSend := h _ (by simp)
      cases this

/-- C3: a send_reply call over any finite failure schedule yields exactly one
success outcome; when the reply is not kept, exactly one delete of the sent
reply; when every failure is a transport send failure (N failed attempts
before the first success), exactly one send — never N; and a send failure
restarts the entire send-then-maybe-delete sequence from scratch, with no
retry counter bounding the schedule length. -/
theorem send_reply_retry_idempotent (keep_reply : Bool)
    (fails : List StepFail) :
    count_send_ev .succeeded (send_reply_trace keep_reply fails) = 1 ∧
    (keep_reply = false →
      count_send_ev .replyDeleted (send_reply_trace keep_reply fails) = 1) ∧
    (keep_reply = true →
      count_send_ev .replyDeleted (send_reply_trace keep_reply fails) = 0) ∧
    ((∀ f ∈ fails, f = StepFail.atSend) →
      count_send_ev .sent (send_reply_trace keep_reply fails) = 1) ∧
    send_reply_trace keep_reply (StepFail.atSend :: fails) =
      SendEv.warned :: send_reply_trace keep_reply fails := by
  refine ⟨count_succeeded_send_reply keep_reply fails, ?_, ?_,
    count_sent_send_reply_all_at_send keep_reply fails, rfl⟩
  · intro hk
    subst hk
    exact count_reply_deleted_send_reply_false fails
  · intro hk
    subst hk
    exact count_reply_deleted_send_reply_true fails

/-- C3 witness: two transport send failures followed by success, with the
reply not kept, yield one success outcome, one delete, one send. -/
theorem send_reply_retry_idempotent_witness :
    count_send_ev .succeeded
      (send_reply_trace false [.atSend, .atSend]) = 1 ∧
    count_send_ev .replyDeleted
      (send_reply_trace false [.atSend, .atSend]) = 1 ∧
    count_send_ev .sent (send_reply_trace false [.atSend, .atSend]) = 1 :=
  ⟨(send_reply_retry_idempotent false [.atSend, .atSend]).1,
   (send_reply_retry_idempotent false [.atSend, .atSend]).2.1 rfl,
   (send_reply_retry_idempotent false [.atSend, .atSend]).2.2.2.1
     (by decide)⟩

/-- C9 counterexample: with no configuration argument, and likewise with a
nonexistent path, main prints its message but the process exits with status
0, because both error paths call the exit routine with no argument — not
with a nonzero status as claimed. -/
theorem main_error_paths_exit_zero :
    (main ["gmailautobouncer"] fun _ => false).printed =
      some "configuration file not on command line, exiting" ∧
    (main ["gmailautobouncer"] fun _ => false).exit_code = 0 ∧
    (main ["gmailautobouncer", "conf.json"] fun _ => false).printed =
      some "file not found at given path conf.json, exiting" ∧
    (main ["gmailautobouncer", "conf.json"] fun _ => false).exit_code = 0 :=
  ⟨rfl, rfl, rfl, rfl⟩

/-- C9 amended: every invocation of main exits with status 0; a missing
argument or a nonexistent configuration path prints a message and exits 0
without running a pass, and otherwise one orchestrator pass runs and the
process exits 0. -/
theorem main_exit_behavior (argv : List String)
    (path_exists : String → Bool) :
    (main argv path_exists).exit_code = 0 ∧
    (argv.length ≤ 1 → main argv path_exists =
      { printed := some "configuration file not on command line, exiting"
        exit_code := 0, ran_pass := false }) ∧
    (1 < argv.length → path_exists (argv.getD 1 "") = false →
      main argv path_exists =
        { printed := some ("file not found at given path " ++
            argv.getD 1 "" ++ ", exiting")
          exit_code := 0, ran_pass := false }) ∧
    (1 < argv.length → path_exists (argv.getD 1 "") = true →
      main argv path_exists =
        { printed := none, exit_code := 0, ran_pass := true }) := by
  refine ⟨?_, fun h => ?_, fun h1 h2 => ?_, fun h1 h2 => ?_⟩
  · unfold main
    split
    · split <;> rfl
    · rfl
  · unfold main
    rw [if_neg (by omega)]
    rfl
  · unfold main
    rw [if_pos h1, if_neg (by rw [h2]; simp)]
    rfl
  · unfold main
    rw [if_pos h1, if_pos h2]

/-- C9 witness: the no-argument invocation prints and exits 0, and an
invocation whose path exists runs a pass and exits 0. -/
theorem main_exit_behavior_witness :
    main ["gmailautobouncer"] (fun _ => true) =
      { printed := some "configuration file not on command line, exiting"
        exit_code := 0, ran_pass := false } ∧
    main ["gmailautobouncer", "c.json"] (fun _ => true) =
      { printed := none, exit_code := 0, ran_pass := true } :=
  ⟨(main_exit_behavior ["gmailautobouncer"] (fun _ => true)).2.1
      (by decide),
   (main_exit_behavior ["gmailautobouncer", "c.json"]
      (fun _ => true)).2.2.2 (by decide) rfl⟩

end GmailAutoBouncer
